import Mathlib

/-!
Verification development for the StudentHelpDesk repository.

This file gives a shallow embedding, in Lean 4, of the document-verification
and form-validation logic of the repository:

* `src/utils/form_validators.py`  — `validate_loan_amount`;
* `src/utils/validators.py`       — `validate_documents` (OCR / extraction
  pipeline, reconciliation, completeness gate, verdict assembly);
* `src/agents/document_checker.py` — `DocumentChecker._extract_fields`
  (the pattern-based field extraction strategy), via a small backtracking
  regular-expression interpreter mirroring Python `re` semantics for the
  constructs those patterns use.

External effects (pdf2image rasterization, tesseract OCR per page, the
Gemini structured-extraction call together with the JSON parse of its
response) are modelled as oracle inputs carried by each document value:
every outcome the Python code branches on (success text, raised exception,
unparseable response) is an explicit `Except` value, and the embedded
functions reproduce exactly the control flow the Python code performs on
those outcomes.  Machine floats in `validate_loan_amount` are modelled as
rationals (the code only compares; no rounding arithmetic occurs).
-/

/-! ### `src/utils/form_validators.py` — `validate_loan_amount` -/

/-- The `program_limits` dict of `validate_loan_amount`
(`form_validators.py` lines 17–21). -/
def program_limits : List (String × Nat) :=
  [("Undergraduate", 50000), ("Graduate", 75000), ("PhD", 100000)]

/-- Python `program_limits.get(program)`: association-list lookup. -/
def limitsGet (program : String) : Option Nat :=
  (program_limits.find? (fun kv => kv.1 == program)).map (fun kv => kv.2)

/-- Insert a comma every three digits from the right, as Python's
`format(n, ',')` does for the `{...:,}` f-string conversion. -/
def commaGroup (digits : List Char) : List Char :=
  if h : digits.length ≤ 3 then digits
  else
    have : digits.length - 3 < digits.length := by omega
    commaGroup (digits.take (digits.length - 3)) ++ (',' :: digits.drop (digits.length - 3))
termination_by digits.length
decreasing_by
  simp only [List.length_take]
  omega

/-- Python `f"{n:,}"` for a natural number. -/
def commaFormat (n : Nat) : String :=
  String.mk (commaGroup (toString n).toList)

/-- `validate_loan_amount(amount, program)` from `form_validators.py`
lines 15–27.  The float `amount` is modelled as a rational.  A normal
return of the Python `Tuple[bool, str]` is `.ok`; the `KeyError` raised by
`program_limits[program]` in the f-string on line 26 when `program` is not
a key is `.error program` (the `KeyError`'s argument). -/
def validate_loan_amount (amount : ℚ) (program : String) : Except String (Bool × String) :=
  if amount ≤ 0 then .ok (false, "Loan amount must be positive")
  else if amount > ((limitsGet program).getD 0 : Nat) then
    match limitsGet program with
    | none => .error program
    | some lim =>
        .ok (false, "Maximum loan amount for " ++ program ++ " is $" ++ commaFormat lim)
  else .ok (true, "")

/-! ### `src/utils/validators.py` — `validate_documents`

Data model of one verification call.  A `Doc` is one element of the
`documents` list together with the outcomes the external capabilities
would produce for it. -/

/-- The fixed five-field object the Gemini response is parsed into
(`validators.py` lines 176–182): each field is `null` (`none`) or a string.
(The code also filters the literal string `"null"`, line 203.) -/
structure Extracted where
  name : Option String
  dob : Option String
  passing_year : Option String
  board : Option String
  gender : Option String
deriving DecidableEq, Repr

/-- One uploaded document plus the oracle outcomes of the external calls
made for it:

* `pdfPages`: result of `pdf2image.convert_from_bytes` (lines 127–134);
  on success, the per-page result of `pytesseract.image_to_string`
  (lines 138–142) for each page, in page order — `.error` is a raised
  exception (e.g. the per-page `timeout=30` expiring).
* `imageOcr`: combined result of `Image.open(...).convert('L')` and
  `pytesseract.image_to_string` (lines 149–153) when the document is
  treated as an image; exceptions there are not caught locally.
* `gemini`: combined result of `model.generate_content` and the JSON
  parse of its cleaned response text (lines 188–199); `.error` covers
  both a raised call and an unparseable response. -/
structure Doc where
  name : String
  pdfPages : Except String (List (Except String String))
  imageOcr : Except String String
  gemini : Except String Extracted

/-- Python `.lower()` on a filename (the names involved are ASCII). -/
def lowerChars (s : String) : List Char := s.data.map Char.toLower

/-- Python `str.endswith`: the suffix test on character lists. -/
def endsWithChars (l suf : List Char) : Bool :=
  l.drop (l.length - suf.length) == suf

/-- `doc.name.lower().endswith('.pdf')` (line 125). -/
def isPdfName (n : String) : Bool := endsWithChars (lowerChars n) ".pdf".data

/-- `doc.name.lower().endswith(('.png', '.jpg', '.jpeg'))` (line 148). -/
def isImageName (n : String) : Bool :=
  endsWithChars (lowerChars n) ".png".data || endsWithChars (lowerChars n) ".jpg".data ||
    endsWithChars (lowerChars n) ".jpeg".data

/-- The `for page_num, img in enumerate(images, 1)` loop of lines 136–142:
`text` accumulates each page's OCR output; a page whose OCR raises aborts
the loop with that exception. -/
def ocrPages : List (Except String String) → Except String String
  | [] => .ok ""
  | .error e :: _ => .error e
  | .ok t :: rest =>
    match ocrPages rest with
    | .error e => .error e
    | .ok ts => .ok (t ++ ts)

/-- The five keys of the `extracted_data` dict, in insertion order
(lines 109–115); also the `required_fields` set of line 227. -/
def requiredFields : List String := ["name", "dob", "passing_year", "board", "gender"]

/-- `extracted.get(field)` on the parsed response object. -/
def fieldGet (e : Extracted) : String → Option String
  | "name" => e.name
  | "dob" => e.dob
  | "passing_year" => e.passing_year
  | "board" => e.board
  | "gender" => e.gender
  | _ => none

/-- The `for field in extracted_data` loop of lines 202–204: one
`(field, value)` observation per field whose parsed value is neither JSON
`null` nor the string `"null"`. -/
def obsOf (e : Extracted) : List (String × String) :=
  requiredFields.filterMap (fun f =>
    match fieldGet e f with
    | some v => if v ≠ "null" then some (f, v) else none
    | none => none)

/-- The per-document body of the `for doc in documents` loop
(lines 120–214): the field observations this document contributes, or the
exception that escapes the loop body to the outer handler.

* a `.pdf` name: a raised conversion or page-OCR exception is caught on
  line 144 and re-raised as `"PDF processing failed: " ++ e` (line 146);
* a `.png`/`.jpg`/`.jpeg` name: an OCR exception propagates as is;
* any other name: `continue` (line 155) — no observations;
* a Gemini call/parse failure: `continue` (lines 208–214) — no
  observations. -/
def docObservations (d : Doc) : Except String (List (String × String)) :=
  if isPdfName d.name then
    match d.pdfPages with
    | .error e => .error ("PDF processing failed: " ++ e)
    | .ok pages =>
      match ocrPages pages with
      | .error e => .error ("PDF processing failed: " ++ e)
      | .ok _text =>
        match d.gemini with
        | .error _ => .ok []
        | .ok ext => .ok (obsOf ext)
  else if isImageName d.name then
    match d.imageOcr with
    | .error e => .error e
    | .ok _text =>
      match d.gemini with
      | .error _ => .ok []
      | .ok ext => .ok (obsOf ext)
  else .ok []

/-- The whole `for doc in documents` loop: the concatenated observation
stream (document order), or the first escaping exception. -/
def collectObs : List Doc → Except String (List (String × String))
  | [] => .ok []
  | d :: ds =>
    match docObservations d with
    | .error e => .error e
    | .ok os =>
      match collectObs ds with
      | .error e => .error e
      | .ok rest => .ok (os ++ rest)

/-- The per-field cleanup of lines 218–222:
`unique_values = list(set(v for v in values if v))`.  Python's set
iteration order is unspecified; `List.dedup` is used as one concrete
de-duplication by string equality (membership and cardinality, the
properties proved below, do not depend on the order chosen). -/
def cleanedValues (obs : List (String × String)) (f : String) : List String :=
  (((obs.filter (fun p => p.1 == f)).map (fun p => p.2)).filter (fun v => v ≠ "")).dedup

/-- `cleaned_data` (lines 217–222): fields (in `extracted_data` dict
order) whose cleaned value list is non-empty, each with that list. -/
def cleanedData (obs : List (String × String)) : List (String × List String) :=
  requiredFields.filterMap (fun f =>
    match cleanedValues obs f with
    | [] => none
    | vs => some (f, vs))

/-- `missing_fields = required_fields - set(cleaned_data.keys())`
(line 228), listed in `required_fields` order (the Python value is a set
with unspecified iteration order). -/
def missingFields (obs : List (String × String)) : List String :=
  requiredFields.filter (fun f => cleanedValues obs f == [])

/-- The `verification_status` tag. -/
inductive Status where
  | success
  | failed
  | error
deriving DecidableEq, Repr

/-- The dict returned by `validate_documents`: `reason` and `error` model
the correspondingly named keys when present, and `extracted_data` is
`none` exactly when the dict has no `extracted_data` key (the error
branch, lines 249–254). -/
structure Verdict where
  valid : Bool
  verification_status : Status
  reason : Option String
  extracted_data : Option (List (String × List String))
  errMsg : Option String
deriving DecidableEq, Repr

/-- `", ".join(missing_fields)` (line 235). -/
def joinComma : List String → String
  | [] => ""
  | [s] => s
  | s :: rest => s ++ ", " ++ joinComma rest

/-- `validate_documents(documents)` from `validators.py` lines 90–254.
`registry` is the `student_df` table loaded from `student.csv` on
line 101: the function body never reads it after loading, so it is an
unused parameter here exactly as `student_df` is an unused local there.

* any exception escaping the loop reaches the outer handler of
  lines 247–254: `valid=False`, `status=error`, reason
  `"Document processing failed: " ++ e`, `error=e`, no extracted data;
* otherwise the completeness gate of lines 227–245 decides between the
  failed verdict (lines 232–237) and the success verdict (lines 241–245). -/
def validate_documents (registry : List (String × String × String × String × String))
    (docs : List Doc) : Verdict :=
  match collectObs docs with
  | .error e =>
    { valid := false
      verification_status := .error
      reason := some ("Document processing failed: " ++ e)
      extracted_data := none
      errMsg := some e }
  | .ok obs =>
    if (missingFields obs).isEmpty then
      { valid := true
        verification_status := .success
        reason := none
        extracted_data := some (cleanedData obs)
        errMsg := none }
    else
      { valid := false
        verification_status := .failed
        reason := some ("Missing required fields: " ++ joinComma (missingFields obs))
        extracted_data := some (cleanedData obs)
        errMsg := none }

/-! ### `src/agents/document_checker.py` — `DocumentChecker._extract_fields`

A small interpreter for the Python `re` patterns used there
(lines 82–132).  Only the constructs those patterns use are represented.
Every quantifier in those patterns is applied to a single character
class, which keeps the backtracking matcher structurally recursive.
Matching is written in continuation-passing style and tries branches in
exactly the order Python `re` does: leftmost starting position first,
ordered alternation, greedy and lazy quantifiers, zero-width lookahead,
and the non-MULTILINE `$` anchor. -/

inductive RE where
  | eps : RE
  | cls : (Char → Bool) → RE
  | seq : RE → RE → RE
  | alt : RE → RE → RE
  | look : RE → RE
  | endA : RE
  | starG : (Char → Bool) → RE
  | starL : (Char → Bool) → RE
  | opt : RE → RE

/-- Greedy star over a character class, CPS: consume as many class
characters as possible, backing off one at a time when the continuation
fails. -/
def starGreedy (f : Char → Bool) : List Char → (List Char → Option (List Char)) → Option (List Char)
  | [], k => k []
  | c :: cs, k =>
    if f c then
      match starGreedy f cs k with
      | some r => some r
      | none => k (c :: cs)
    else k (c :: cs)

/-- Lazy star over a character class, CPS: try the continuation first,
consuming another class character only on failure. -/
def starLazy (f : Char → Bool) : List Char → (List Char → Option (List Char)) → Option (List Char)
  | [], k => k []
  | c :: cs, k =>
    match k (c :: cs) with
    | some r => some r
    | none => if f c then starLazy f cs k else none

/-- Run a pattern at the head of the input; `k` receives the unconsumed
rest.  The first success in Python backtracking order is returned. -/
def RE.run : RE → List Char → (List Char → Option (List Char)) → Option (List Char)
  | .eps, cs, k => k cs
  | .cls _, [], _ => none
  | .cls f, c :: cs, k => if f c then k cs else none
  | .seq a b, cs, k => a.run cs (fun r => b.run r k)
  | .alt a b, cs, k =>
    match a.run cs k with
    | some r => some r
    | none => b.run cs k
  | .look a, cs, k =>
    match a.run cs (fun r => some r) with
    | some _ => k cs
    | none => none
  | .endA, cs, k => if cs = [] ∨ cs = ['\n'] then k cs else none
  | .starG f, cs, k => starGreedy f cs k
  | .starL f, cs, k => starLazy f cs k
  | .opt a, cs, k =>
    match a.run cs k with
    | some r => some r
    | none => k cs

/-- One literal character (case-sensitive). -/
def chr (c : Char) : RE := .cls (fun x => x == c)

/-- One literal character under `re.IGNORECASE`. -/
def chrCI (c : Char) : RE := .cls (fun x => x.toLower == c.toLower)

/-- A literal string (case-sensitive). -/
def strLit (s : String) : RE := s.toList.foldr (fun c r => .seq (chr c) r) .eps

/-- A literal string under `re.IGNORECASE`. -/
def strCI (s : String) : RE := s.toList.foldr (fun c r => .seq (chrCI c) r) .eps

/-- A literal string, case-insensitive when `ci` is true. -/
def lit (ci : Bool) (s : String) : RE := if ci then strCI s else strLit s

/-- Ordered alternation of a non-empty pattern list. -/
def altList : List RE → RE
  | [] => .cls (fun _ => false)
  | [r] => r
  | r :: rs => .alt r (altList rs)

/-- `+` (greedy) over a character class. -/
def plusG (f : Char → Bool) : RE := .seq (.cls f) (.starG f)

/-- `+?` (lazy) over a character class. -/
def plusL (f : Char → Bool) : RE := .seq (.cls f) (.starL f)

/-- `{n}` over a character class. -/
def repN (f : Char → Bool) : Nat → RE
  | 0 => .eps
  | n + 1 => .seq (.cls f) (repN f n)

/-- Python `\s` on ASCII text: space, tab, newline, carriage return,
vertical tab, form feed. -/
def isWs (c : Char) : Bool :=
  c == ' ' || c == '\t' || c == '\n' || c == '\r' || c == Char.ofNat 11 || c == Char.ofNat 12

/-- `\d` on ASCII text. -/
def isDigitC (c : Char) : Bool := c.isDigit

/-- Python `\w` on ASCII text: letter, digit or underscore. -/
def isWordC (c : Char) : Bool := c.isAlphanum || c == '_'

/-- `[:\s]`. -/
def isColonWs (c : Char) : Bool := c == ':' || isWs c

/-- `[A-Z]` under `re.IGNORECASE`: any letter. -/
def isLetterC (c : Char) : Bool := c.isAlpha

/-- `[A-Za-z\s]`. -/
def isLetterWs (c : Char) : Bool := c.isAlpha || isWs c

/-- `[A-Z]` (case-sensitive, the fallback name pattern has no
`re.IGNORECASE` flag). -/
def isUpperC (c : Char) : Bool := decide ('A' ≤ c) && decide (c ≤ 'Z')

/-- `[\s-]`. -/
def isWsDash (c : Char) : Bool := isWs c || c == '-'

/-- The date-separator class: a dash or a forward slash. -/
def isDashSlash (c : Char) : Bool := c == '-' || c == '/'

/-- Match `pre`, then a capturing group `body`, then `post`, at the head
of `cs`; on success return the characters the group consumed — Python
`match.group(1)` for a pattern `pre(body)post`. -/
def matchCapture (pre body post : RE) (cs : List Char) : Option (List Char) :=
  pre.run cs (fun r1 =>
    body.run r1 (fun r2 =>
      post.run r2 (fun _ => some (r1.take (r1.length - r2.length)))))

/-- Try each `(pre, body, post)` alternative, in order, at one starting
position (a top-level `|` between two captures, as in the total-marks
pattern, yields `group(1) or group(2)`). -/
def matchAny : List (RE × RE × RE) → List Char → Option (List Char)
  | [], _ => none
  | (pre, body, post) :: ps, cs =>
    match matchCapture pre body post cs with
    | some g => some g
    | none => matchAny ps cs

/-- First (leftmost) match of the pattern over the whole input — the
first element of `re.finditer`: starting positions are tried left to
right. -/
def scanAny (pats : List (RE × RE × RE)) : List Char → Option (List Char)
  | [] => matchAny pats []
  | c :: cs =>
    match matchAny pats (c :: cs) with
    | some g => some g
    | none => scanAny pats cs

/-- Python `.strip()` on a captured group: drop leading and trailing
whitespace. -/
def stripG (g : List Char) : String :=
  String.mk (((g.dropWhile isWs).reverse.dropWhile isWs).reverse)

/-- The lookahead of the two name patterns of the marksheet branch
(lines 88 and 92): `(?=\n|$|roll|class|of\s|registration)` — `ci` selects
whether the literal words are case-insensitive (the fallback pattern on
line 92 carries no `re.IGNORECASE` flag). -/
def nameStopMark (ci : Bool) : RE :=
  .look (altList [chr '\n', .endA, lit ci "roll", lit ci "class",
                  .seq (lit ci "of") (.cls isWs), lit ci "registration"])

/-- Line 88: `name[:\s]+([A-Z][A-Za-z\s]+?)(?=…)`, `re.IGNORECASE`. -/
def nameMarkPat : RE × RE × RE :=
  (.seq (strCI "name") (plusG isColonWs),
   .seq (.cls isLetterC) (plusL isLetterWs),
   nameStopMark true)

/-- Line 92, the label-free fallback: `([A-Z][A-Za-z\s]+?)(?=…)`,
case-sensitive. -/
def nameBarePat : RE × RE × RE :=
  (.eps,
   .seq (.cls isUpperC) (plusL isLetterWs),
   nameStopMark false)

/-- The shared date-of-birth label
`(?:date\s+of\s+birth|dob|born\s+on)` (lines 97 and 123). -/
def dobLabel : RE :=
  altList
    [.seq (strCI "date") (.seq (plusG isWs) (.seq (strCI "of") (.seq (plusG isWs) (strCI "birth")))),
     strCI "dob",
     .seq (strCI "born") (.seq (plusG isWs) (strCI "on"))]

/-- Two digits, a separator, two digits, a separator, four digits (the
first date alternative of lines 97 and 123). -/
def dateDMY : RE :=
  .seq (repN isDigitC 2) (.seq (.cls isDashSlash)
    (.seq (repN isDigitC 2) (.seq (.cls isDashSlash) (repN isDigitC 4))))

/-- Four digits, a separator, two digits, a separator, two digits (the
second date alternative of lines 97 and 123). -/
def dateYMD : RE :=
  .seq (repN isDigitC 4) (.seq (.cls isDashSlash)
    (.seq (repN isDigitC 2) (.seq (.cls isDashSlash) (repN isDigitC 2))))

/-- Lines 97 and 123: the DOB pattern, `re.IGNORECASE`. -/
def dobPat : RE × RE × RE :=
  (.seq dobLabel (plusG isColonWs), .alt dateDMY dateYMD, .eps)

/-- Line 102: `(?:pass|examination|academic\s+year|year)[:\s]+(20\d{2})`,
`re.IGNORECASE`. -/
def yearPat : RE × RE × RE :=
  (.seq (altList [strCI "pass", strCI "examination",
                  .seq (strCI "academic") (.seq (plusG isWs) (strCI "year")),
                  strCI "year"])
        (plusG isColonWs),
   .seq (strCI "20") (repN isDigitC 2),
   .eps)

/-- Line 107:
`(?:board|council|issued\s+by)[:\s]+((?:CBSE|ICSE|ISC|STATE|BOARD|COUNCIL)[\s\w]+?)(?=\n|$|roll|class)`,
`re.IGNORECASE`. -/
def boardPat : RE × RE × RE :=
  (.seq (altList [strCI "board", strCI "council",
                  .seq (strCI "issued") (.seq (plusG isWs) (strCI "by"))])
        (plusG isColonWs),
   .seq (altList [strCI "CBSE", strCI "ICSE", strCI "ISC",
                  strCI "STATE", strCI "BOARD", strCI "COUNCIL"])
        (plusL (fun c => isWs c || isWordC c)),
   .look (altList [chr '\n', .endA, strCI "roll", strCI "class"]))

/-- Line 112, first alternative: `total[:\s]+(\d+)`, `re.IGNORECASE`. -/
def totalPat : RE × RE × RE :=
  (.seq (strCI "total") (plusG isColonWs), plusG isDigitC, .eps)

/-- Line 112, second alternative: `aggregate[:\s]+(\d+(?:\.\d+)?)`,
`re.IGNORECASE`. -/
def aggregatePat : RE × RE × RE :=
  (.seq (strCI "aggregate") (plusG isColonWs),
   .seq (plusG isDigitC) (.opt (.seq (chr '.') (plusG isDigitC))),
   .eps)

/-- Line 118, the id-branch name pattern:
`name[:\s]+([A-Z][A-Za-z\s]+?)(?=\n|$|male|female|sex|gender|father|mother|dob)`,
`re.IGNORECASE`. -/
def nameIdPat : RE × RE × RE :=
  (.seq (strCI "name") (plusG isColonWs),
   .seq (.cls isLetterC) (plusL isLetterWs),
   .look (altList [chr '\n', .endA, strCI "male", strCI "female", strCI "sex",
                   strCI "gender", strCI "father", strCI "mother", strCI "dob"]))

/-- Line 128: `(\d{4}[\s-]*\d{4}[\s-]*\d{4})`. -/
def aadharPat : RE × RE × RE :=
  (.eps,
   .seq (repN isDigitC 4) (.seq (.starG isWsDash)
     (.seq (repN isDigitC 4) (.seq (.starG isWsDash) (repN isDigitC 4)))),
   .eps)

/-- `DocumentChecker._extract_fields(text, doc_type)`
(`document_checker.py` lines 82–132).  The returned association list is
the `fields` dict in insertion order; a `none` value is Python `None`.
Each entry takes the first `finditer` match (the code builds the list of
all matches and indexes `[0]`), with the same post-processing the code
applies (`.strip()` for names and boards, separator removal for the
aadhar number); the name entry of the marksheet branch falls back to the
label-free pattern when the labelled one matches nowhere (lines 90–93). -/
def extract_fields (text : String) (doc_type : String) : List (String × Option String) :=
  let cs := text.toList
  if doc_type == "marksheet" then
    let names : Option String :=
      match scanAny [nameMarkPat] cs with
      | some g => some (stripG g)
      | none => (scanAny [nameBarePat] cs).map stripG
    [("name", names),
     ("dob", (scanAny [dobPat] cs).map String.mk),
     ("passing_year", (scanAny [yearPat] cs).map String.mk),
     ("board", (scanAny [boardPat] cs).map stripG),
     ("total_marks", (scanAny [totalPat, aggregatePat] cs).map String.mk)]
  else if doc_type == "id" then
    [("name", (scanAny [nameIdPat] cs).map stripG),
     ("dob", (scanAny [dobPat] cs).map String.mk),
     ("aadhar", (scanAny [aadharPat] cs).map
        (fun g => String.mk (g.filter (fun c => c ≠ ' ' && c ≠ '-'))))]
  else []

/-! ### Helper lemmas -/

deriving instance DecidableEq for Except

/-- A list containing two different elements has at least two elements. -/
lemma two_le_length_of_two_mem {l : List String} {a b : String}
    (ha : a ∈ l) (hb : b ∈ l) (hab : a ≠ b) : 2 ≤ l.length := by
  cases l with
  | nil => cases ha
  | cons x xs =>
    cases xs with
    | cons y ys => simp only [List.length_cons]; omega
    | nil =>
      simp only [List.mem_singleton] at ha hb
      exact absurd (ha.trans hb.symm) hab

/-- If every page's OCR succeeds, the page loop returns concatenated text. -/
lemma ocrPages_all_ok {ps : List (Except String String)}
    (h : ∀ p ∈ ps, ∃ t, p = .ok t) : ∃ t, ocrPages ps = .ok t := by
  induction ps with
  | nil => exact ⟨"", rfl⟩
  | cons p rest ih =>
    obtain ⟨t, ht⟩ := h p (List.mem_cons_self p rest)
    obtain ⟨ts, hts⟩ := ih (fun q hq => h q (List.mem_cons_of_mem p hq))
    subst ht
    exact ⟨t ++ ts, by simp [ocrPages, hts]⟩

/-- The page loop aborts with the first raising page's exception. -/
lemma ocrPages_first_error (e : String) (post : List (Except String String)) :
    ∀ pre : List (Except String String), (∀ p ∈ pre, ∃ t, p = .ok t) →
    ocrPages (pre ++ .error e :: post) = .error e := by
  intro pre
  induction pre with
  | nil => intro _; rfl
  | cons p rest ih =>
    intro h
    obtain ⟨t, ht⟩ := h p (List.mem_cons_self p rest)
    subst ht
    have h2 := ih (fun q hq => h q (List.mem_cons_of_mem _ hq))
    simp [List.cons_append, ocrPages, h2]

/-- A document whose loop iteration contributes no observations can be
removed from the document list without changing the collected stream. -/
lemma collectObs_skip {d : Doc} (h : docObservations d = .ok []) :
    ∀ l1 l2 : List Doc, collectObs (l1 ++ d :: l2) = collectObs (l1 ++ l2) := by
  intro l1
  induction l1 with
  | nil =>
    intro l2
    simp only [List.nil_append]
    show collectObs (d :: l2) = collectObs l2
    simp only [collectObs, h]
    cases h2 : collectObs l2 <;> simp
  | cons a rest ih =>
    intro l2
    show collectObs (a :: (rest ++ d :: l2)) = collectObs (a :: (rest ++ l2))
    simp only [collectObs]
    rw [ih l2]

/-- Membership in a cleaned value list is exactly: the raw pair was
observed and the value is non-empty (lines 218–222 compare raw strings). -/
lemma mem_cleanedValues {obs : List (String × String)} {f v : String} :
    v ∈ cleanedValues obs f ↔ (f, v) ∈ obs ∧ v ≠ "" := by
  unfold cleanedValues
  simp only [List.mem_dedup, List.mem_filter, List.mem_map, decide_eq_true_eq]
  constructor
  · rintro ⟨⟨⟨a, b⟩, hp, rfl⟩, hne⟩
    simp only [List.mem_filter, beq_iff_eq] at hp
    obtain ⟨hmem, hf⟩ := hp
    subst hf
    exact ⟨hmem, hne⟩
  · rintro ⟨hmem, hne⟩
    exact ⟨⟨(f, v), by simp [List.mem_filter, hmem], rfl⟩, hne⟩

/-- A program outside the `program_limits` table has no limit entry. -/
lemma limitsGet_eq_none {p : String}
    (h : p ∉ ["Undergraduate", "Graduate", "PhD"]) : limitsGet p = none := by
  simp only [List.mem_cons, List.not_mem_nil, or_false, not_or] at h
  obtain ⟨h1, h2, h3⟩ := h
  have e1 : (("Undergraduate" : String) == p) = false :=
    beq_eq_false_iff_ne.mpr (Ne.symm h1)
  have e2 : (("Graduate" : String) == p) = false :=
    beq_eq_false_iff_ne.mpr (Ne.symm h2)
  have e3 : (("PhD" : String) == p) = false :=
    beq_eq_false_iff_ne.mpr (Ne.symm h3)
  simp [limitsGet, program_limits, List.find?, e1, e2, e3]

/-! ### Claim theorems -/

/-- C10: for a positive amount and a program outside the
`program_limits` table, `validate_loan_amount` raises `KeyError`
(modelled `.error program`) instead of returning a tuple; for a program
in the table it returns a tuple for every amount. -/
theorem validate_loan_amount_unknown_program_raises :
    (∀ (a : ℚ) (p : String), 0 < a → p ∉ ["Undergraduate", "Graduate", "PhD"] →
      validate_loan_amount a p = .error p) ∧
    (∀ (a : ℚ) (p : String), p ∈ ["Undergraduate", "Graduate", "PhD"] →
      ∃ r, validate_loan_amount a p = .ok r) := by
  constructor
  · intro a p ha hp
    have hn := limitsGet_eq_none hp
    unfold validate_loan_amount
    rw [hn]
    simp only [Option.getD_none, Nat.cast_zero]
    rw [if_neg (not_le.mpr ha), if_pos ha]
  · intro a p hp
    simp only [List.mem_cons, List.not_mem_nil, or_false] at hp
    rcases hp with rfl | rfl | rfl <;>
      · unfold validate_loan_amount
        split_ifs <;> exact ⟨_, rfl⟩

/-- Witness for C10: a positive amount with an unknown program raises,
and the same amount with a known program returns a tuple. -/
theorem validate_loan_amount_unknown_program_raises_witness :
    validate_loan_amount 60000 "Diploma" = .error "Diploma" ∧
    ∃ r, validate_loan_amount 60000 "PhD" = .ok r :=
  ⟨validate_loan_amount_unknown_program_raises.1 60000 "Diploma" (by norm_num) (by decide),
   validate_loan_amount_unknown_program_raises.2 60000 "PhD" (by decide)⟩

/-- The `student_df` row type: the registry columns used by the
verification data model (name, dob, passing year, board, gender). -/
abbrev Registry := List (String × String × String × String × String)

/-- C1: a reconciled field set lacking at least one required field gives
`valid=False`, `verification_status="failed"`, a reason built from the
missing-field list (which holds exactly the required fields with no
cleaned value), and the verdict is the same for any two registry
contents — no registry lookup or matching takes place. -/
theorem missing_required_fields_fail
    (registry registry2 : Registry) (docs : List Doc)
    (obs : List (String × String)) (f : String)
    (hobs : collectObs docs = .ok obs) (hmiss : missingFields obs ≠ []) :
    (validate_documents registry docs).valid = false ∧
    (validate_documents registry docs).verification_status = .failed ∧
    (validate_documents registry docs).reason =
      some ("Missing required fields: " ++ joinComma (missingFields obs)) ∧
    (f ∈ missingFields obs ↔ f ∈ requiredFields ∧ cleanedValues obs f = []) ∧
    validate_documents registry docs = validate_documents registry2 docs := by
  have hne : (missingFields obs).isEmpty = false := by
    cases h : missingFields obs with
    | nil => exact absurd h hmiss
    | cons a l => rfl
  refine ⟨?_, ?_, ?_, ?_, rfl⟩
  · simp [validate_documents, hobs, hne]
  · simp [validate_documents, hobs, hne]
  · simp [validate_documents, hobs, hne]
  · simp [missingFields, List.mem_filter]

/-- The single document of the C1 witness call: an image whose
extraction observes only `name` and `dob`. -/
def docC1 : Doc :=
  { name := "marksheet.png", pdfPages := .error "unused",
    imageOcr := .ok "ocr text",
    gemini := .ok ⟨some "Asha Rao", some "2004-05-12", none, none, none⟩ }

/-- Witness for C1: with only `name` and `dob` observed, the verdict
fails, the reason lists the three missing fields, `board` is missing, and
the verdict ignores the registry. -/
theorem missing_required_fields_fail_witness :
    (validate_documents [("Asha Rao", "2004-05-12", "2021", "CBSE", "Female")] [docC1]).valid = false ∧
    (validate_documents [("Asha Rao", "2004-05-12", "2021", "CBSE", "Female")] [docC1]).verification_status = .failed ∧
    (validate_documents [("Asha Rao", "2004-05-12", "2021", "CBSE", "Female")] [docC1]).reason =
      some ("Missing required fields: " ++
        joinComma (missingFields [("name", "Asha Rao"), ("dob", "2004-05-12")])) ∧
    ("board" ∈ missingFields [("name", "Asha Rao"), ("dob", "2004-05-12")] ↔
      "board" ∈ requiredFields ∧
        cleanedValues [("name", "Asha Rao"), ("dob", "2004-05-12")] "board" = []) ∧
    validate_documents [("Asha Rao", "2004-05-12", "2021", "CBSE", "Female")] [docC1] =
      validate_documents [] [docC1] :=
  missing_required_fields_fail [("Asha Rao", "2004-05-12", "2021", "CBSE", "Female")] []
    [docC1] [("name", "Asha Rao"), ("dob", "2004-05-12")] "board" rfl (by decide)

/-- The single document of the Scenario D call: extraction observes all
five required fields. -/
def docC2 : Doc :=
  { name := "marksheet.png", pdfPages := .error "unused",
    imageOcr := .ok "full ocr text",
    gemini := .ok ⟨some "Asha Rao", some "2004-05-12", some "2021", some "CBSE", some "Female"⟩ }

/-- The Scenario D registry: the first record agrees with the cleaned
field set on 3 of 5 fields (name, dob, passing year), the second on 1 of
5 (gender). -/
def registryD : Registry :=
  [("Asha Rao", "2004-05-12", "2021", "WBCHSE", "Male"),
   ("Priya Sen", "1999-01-01", "1990", "ICSE", "Female")]

/-- C2 (evaluation at Scenario D): with a complete cleaned field set and
a registry holding a 3-of-5-field record and a 1-of-5-field record, the
code returns a plain success verdict that carries no matched record, no
matched-field map and no score — the returned dict has only the `valid`,
`verification_status` and `extracted_data` keys — and the verdict is
identical with the registry replaced by an empty one: no record is ever
scored. -/
theorem registry_never_consulted :
    validate_documents registryD [docC2] =
      { valid := true, verification_status := .success, reason := none,
        extracted_data := some [("name", ["Asha Rao"]), ("dob", ["2004-05-12"]),
          ("passing_year", ["2021"]), ("board", ["CBSE"]), ("gender", ["Female"])],
        errMsg := none } ∧
    validate_documents registryD [docC2] = validate_documents [] [docC2] :=
  ⟨by decide, rfl⟩

/-- C7: a document whose name ends in none of `.pdf`, `.png`, `.jpg`,
`.jpeg` is skipped by the loop: it contributes zero observations, and
removing it from the document list leaves the verdict unchanged — so its
presence alone can never turn the verdict into a failure or error. -/
theorem unsupported_document_skipped
    (registry : Registry) (l1 l2 : List Doc) (d : Doc)
    (hp : isPdfName d.name = false) (hi : isImageName d.name = false) :
    docObservations d = .ok [] ∧
    validate_documents registry (l1 ++ d :: l2) = validate_documents registry (l1 ++ l2) := by
  have hdo : docObservations d = .ok [] := by
    simp [docObservations, hp, hi]
  refine ⟨hdo, ?_⟩
  unfold validate_documents
  rw [collectObs_skip hdo l1 l2]

/-- A document of unsupported kind for the C7 witness. -/
def docC7 : Doc :=
  { name := "notes.txt", pdfPages := .error "unused",
    imageOcr := .error "unused", gemini := .error "unused" }

/-- Witness for C7 at a concrete call: the text file contributes nothing
and the verdict equals that of the call without it. -/
theorem unsupported_document_skipped_witness :
    docObservations docC7 = .ok [] ∧
    validate_documents [] ([docC1] ++ docC7 :: []) = validate_documents [] ([docC1] ++ []) :=
  unsupported_document_skipped [] [docC1] [] docC7 (by decide) (by decide)

/-- Hypothesis of Scenario E for one document: every OCR invocation the
loop would make for this document raises (for a PDF, conversion succeeds
and every page's OCR raises; for an image, the single OCR raises). -/
def pagesAllRaise (d : Doc) : Prop :=
  (isPdfName d.name = true → ∃ ps, d.pdfPages = .ok ps ∧ ∀ p ∈ ps, ∃ e, p = .error e) ∧
  (isPdfName d.name = false → isImageName d.name = true → ∃ e, d.imageOcr = .error e)

/-- The document actually reaches an OCR call: it is a PDF with at least
one page, or an image. -/
def ocrWork (d : Doc) : Prop :=
  (isPdfName d.name = true ∧ ∃ ps, d.pdfPages = .ok ps ∧ ps ≠ []) ∨
  (isPdfName d.name = false ∧ isImageName d.name = true)

/-- A document whose every OCR raises and which reaches an OCR call makes
its loop iteration raise. -/
lemma docObservations_error_of_raise {d : Doc} (h : pagesAllRaise d) (hw : ocrWork d) :
    ∃ e, docObservations d = .error e := by
  rcases hw with ⟨hp, ps, hps, hne⟩ | ⟨hp, hi⟩
  · obtain ⟨ps2, hps2, hall⟩ := h.1 hp
    rw [hps] at hps2
    injection hps2 with heq
    subst heq
    cases ps with
    | nil => exact absurd rfl hne
    | cons p rest =>
      obtain ⟨e, he⟩ := hall p (List.mem_cons_self p rest)
      subst he
      exact ⟨"PDF processing failed: " ++ e, by simp [docObservations, hp, hps, ocrPages]⟩
  · obtain ⟨e, he⟩ := h.2 hp hi
    exact ⟨e, by simp [docObservations, hp, hi, he]⟩

/-- A document whose every OCR raises but which reaches no OCR call
(unsupported kind, or a zero-page PDF) completes its iteration normally. -/
lemma docObservations_ok_of_no_work {d : Doc} (h : pagesAllRaise d) (hw : ¬ ocrWork d) :
    ∃ os, docObservations d = .ok os := by
  by_cases hp : isPdfName d.name
  · obtain ⟨ps, hps, hall⟩ := h.1 hp
    cases ps with
    | cons p rest => exact absurd (Or.inl ⟨hp, _, hps, by simp⟩) hw
    | nil =>
      cases hg : d.gemini with
      | error g => exact ⟨[], by simp [docObservations, hp, hps, ocrPages, hg]⟩
      | ok ext => exact ⟨obsOf ext, by simp [docObservations, hp, hps, ocrPages, hg]⟩
  · have hp2 : isPdfName d.name = false := by simpa using hp
    by_cases hi : isImageName d.name
    · exact absurd (Or.inr ⟨hp2, hi⟩) hw
    · have hi2 : isImageName d.name = false := by simpa using hi
      exact ⟨[], by simp [docObservations, hp2, hi2]⟩

/-- Scenario E at the loop level: if every OCR raises and some document
reaches an OCR call, the loop raises. -/
lemma collectObs_error_of_total_raise :
    ∀ docs : List Doc, (∀ d ∈ docs, pagesAllRaise d) → (∃ d ∈ docs, ocrWork d) →
    ∃ e, collectObs docs = .error e := by
  intro docs
  induction docs with
  | nil => intro _ hw; simp at hw
  | cons d ds ih =>
    intro hall hw
    by_cases hoc : ocrWork d
    · obtain ⟨e, he⟩ := docObservations_error_of_raise (hall d (by simp)) hoc
      exact ⟨e, by simp [collectObs, he]⟩
    · obtain ⟨os, hos⟩ := docObservations_ok_of_no_work (hall d (by simp)) hoc
      have hw2 : ∃ x ∈ ds, ocrWork x := by
        obtain ⟨x, hx, hwx⟩ := hw
        rcases List.mem_cons.mp hx with rfl | hx2
        · exact absurd hwx hoc
        · exact ⟨x, hx2, hwx⟩
      obtain ⟨e, he⟩ := ih (fun x hx => hall x (List.mem_cons_of_mem d hx)) hw2
      exact ⟨e, by simp [collectObs, hos, he]⟩

/-- C3: when the OCR capability raises for every page of every supplied
document (and at least one document reaches an OCR call), the verdict has
`verification_status="error"` — never the business-failure value
`"failed"` — and both the `reason` and `error` keys carry the underlying
error text. -/
theorem total_ocr_failure_gives_error_status
    (registry : Registry) (docs : List Doc)
    (hall : ∀ d ∈ docs, pagesAllRaise d) (hw : ∃ d ∈ docs, ocrWork d) :
    (validate_documents registry docs).verification_status = .error ∧
    (validate_documents registry docs).valid = false ∧
    (validate_documents registry docs).verification_status ≠ .failed ∧
    (validate_documents registry docs).errMsg ≠ none ∧
    (validate_documents registry docs).reason =
      ((validate_documents registry docs).errMsg).map
        (fun e => "Document processing failed: " ++ e) := by
  obtain ⟨e, he⟩ := collectObs_error_of_total_raise docs hall hw
  refine ⟨?_, ?_, ?_, ?_, ?_⟩ <;> simp [validate_documents, he]

/-- The C3 witness document: an image whose one OCR call raises. -/
def docC3 : Doc :=
  { name := "scan.png", pdfPages := .ok [], imageOcr := .error "tesseract raised",
    gemini := .error "not reached" }

/-- Witness for C3 at a one-image-document call whose OCR raises. -/
theorem total_ocr_failure_gives_error_status_witness :
    (validate_documents [] [docC3]).verification_status = .error ∧
    (validate_documents [] [docC3]).valid = false ∧
    (validate_documents [] [docC3]).verification_status ≠ .failed ∧
    (validate_documents [] [docC3]).errMsg ≠ none ∧
    (validate_documents [] [docC3]).reason =
      ((validate_documents [] [docC3]).errMsg).map
        (fun e => "Document processing failed: " ++ e) :=
  total_ocr_failure_gives_error_status [] [docC3]
    (by
      intro d hd
      simp only [List.mem_singleton] at hd
      subst hd
      exact ⟨fun h => absurd h (by decide), fun _ _ => ⟨"tesseract raised", rfl⟩⟩)
    ⟨docC3, List.mem_singleton.mpr rfl, Or.inr ⟨by decide, by decide⟩⟩

/-- The C4 counterexample document: a PDF whose second page's OCR times
out (pytesseract raises on `timeout=30` expiry) while the other pages
succeed. -/
def docC4 : Doc :=
  { name := "transcript.pdf",
    pdfPages := .ok [.ok "Page one ", .error "tesseract timeout", .ok "Page two"],
    imageOcr := .error "unused", gemini := .error "unused" }

/-- Counterexample to C4: on a concrete page sequence whose middle page
times out, extraction raises — the page does not contribute an empty
string to concatenated text and the remaining page is not reached — and
the whole verification call degrades to the error verdict. -/
theorem page_timeout_raises_counterexample :
    ocrPages [.ok "Page one ", .error "tesseract timeout", .ok "Page two"] =
      .error "tesseract timeout" ∧
    ocrPages [.ok "Page one ", .error "tesseract timeout", .ok "Page two"] ≠
      .ok ("Page one " ++ "" ++ "Page two") ∧
    (validate_documents [] [docC4]).verification_status = .error := by
  refine ⟨rfl, ?_, by decide⟩
  intro h
  exact Except.noConfusion h

/-- C4 as amended: a page whose OCR times out makes `ocrPages` abort with
that exception; the PDF handler re-raises it as
`"PDF processing failed: …"`, and the orchestrator turns the call into a
`status="error"` verdict — the page contributes no empty string and the
remaining pages are not extracted. -/
theorem page_timeout_escalates_to_error
    (registry : Registry) (d : Doc) (pre post : List (Except String String)) (e : String)
    (hpdf : isPdfName d.name = true)
    (hpages : d.pdfPages = .ok (pre ++ .error e :: post))
    (hpre : ∀ p ∈ pre, ∃ t, p = .ok t) :
    ocrPages (pre ++ .error e :: post) = .error e ∧
    validate_documents registry [d] =
      { valid := false, verification_status := .error,
        reason := some ("Document processing failed: " ++ ("PDF processing failed: " ++ e)),
        extracted_data := none,
        errMsg := some ("PDF processing failed: " ++ e) } := by
  have hocr := ocrPages_first_error e post pre hpre
  refine ⟨hocr, ?_⟩
  have hdo : docObservations d = .error ("PDF processing failed: " ++ e) := by
    simp [docObservations, hpdf, hpages, hocr]
  simp [validate_documents, collectObs, hdo]

/-- Witness for the amended C4 at the concrete timing-out PDF. -/
theorem page_timeout_escalates_to_error_witness :
    ocrPages ([.ok "Page one "] ++ .error "tesseract timeout" :: [.ok "Page two"]) =
      .error "tesseract timeout" ∧
    validate_documents [] [docC4] =
      { valid := false, verification_status := .error,
        reason := some ("Document processing failed: " ++
          ("PDF processing failed: " ++ "tesseract timeout")),
        extracted_data := none,
        errMsg := some ("PDF processing failed: " ++ "tesseract timeout") } :=
  page_timeout_escalates_to_error [] docC4 [.ok "Page one "] [.ok "Page two"]
    "tesseract timeout" (by decide) rfl
    (by rintro p hp; simp only [List.mem_singleton] at hp; exact ⟨"Page one ", hp⟩)

/-- The two C5 documents: each observes one `dob` value, in the two
accepted date formats. -/
def docsC5 : List Doc :=
  [{ name := "marksheet.png", pdfPages := .error "unused", imageOcr := .ok "text one",
     gemini := .ok ⟨none, some "2004-05-12", none, none, none⟩ },
   { name := "idcard.png", pdfPages := .error "unused", imageOcr := .ok "text two",
     gemini := .ok ⟨none, some "12-05-2004", none, none, none⟩ }]

/-- Counterexample to C5: the two observations of the same date in the
two accepted formats do NOT de-duplicate — the cleaned `dob` set has two
members, not one: reconciliation compares raw strings with no
normalization (lines 216–222 use `set(v for v in values if v)`). -/
theorem date_formats_not_deduplicated_counterexample :
    collectObs docsC5 = .ok [("dob", "2004-05-12"), ("dob", "12-05-2004")] ∧
    cleanedValues [("dob", "2004-05-12"), ("dob", "12-05-2004")] "dob" =
      ["2004-05-12", "12-05-2004"] ∧
    (validate_documents [] docsC5).extracted_data =
      some [("dob", ["2004-05-12", "12-05-2004"])] ∧
    (cleanedValues [("dob", "2004-05-12"), ("dob", "12-05-2004")] "dob").length ≠ 1 := by
  refine ⟨rfl, rfl, by decide, by decide⟩

/-- C5 as amended: de-duplication is by exact string equality of the raw
observed values, so two distinct non-empty observations of one field both
survive into the cleaned value set — in particular `dob="2004-05-12"` and
`dob="12-05-2004"` yield a two-member `dob` set. -/
theorem distinct_observations_both_kept
    (obs : List (String × String)) (f v1 v2 : String)
    (h1 : (f, v1) ∈ obs) (h2 : (f, v2) ∈ obs) (hne : v1 ≠ v2)
    (hv1 : v1 ≠ "") (hv2 : v2 ≠ "") :
    v1 ∈ cleanedValues obs f ∧ v2 ∈ cleanedValues obs f ∧
      2 ≤ (cleanedValues obs f).length := by
  have m1 := mem_cleanedValues.mpr ⟨h1, hv1⟩
  have m2 := mem_cleanedValues.mpr ⟨h2, hv2⟩
  exact ⟨m1, m2, two_le_length_of_two_mem m1 m2 hne⟩

/-- Witness for the amended C5 at the two concrete date observations. -/
theorem distinct_observations_both_kept_witness :
    "2004-05-12" ∈ cleanedValues [("dob", "2004-05-12"), ("dob", "12-05-2004")] "dob" ∧
    "12-05-2004" ∈ cleanedValues [("dob", "2004-05-12"), ("dob", "12-05-2004")] "dob" ∧
    2 ≤ (cleanedValues [("dob", "2004-05-12"), ("dob", "12-05-2004")] "dob").length :=
  distinct_observations_both_kept [("dob", "2004-05-12"), ("dob", "12-05-2004")]
    "dob" "2004-05-12" "12-05-2004" (by decide) (by decide) (by decide) (by decide) (by decide)

/-- The document's OCR stage completes without raising (so control
reaches the Gemini call): every PDF page's OCR returns text, or the
single image OCR returns text. -/
def ocrSucceeds (d : Doc) : Prop :=
  (isPdfName d.name = true → ∃ ps, d.pdfPages = .ok ps ∧ ∀ p ∈ ps, ∃ t, p = .ok t) ∧
  (isPdfName d.name = false → isImageName d.name = true → ∃ t, d.imageOcr = .ok t)

/-- C8: a document whose structured-extraction call raises or whose
response fails to parse as the fixed five-field object (`.error` on the
`gemini` oracle) contributes zero field observations, and the call
continues exactly as if the document were absent — the remaining
documents' contributions decide the verdict. -/
theorem gemini_failure_skips_document
    (registry : Registry) (l1 l2 : List Doc) (d : Doc) (g : String)
    (hg : d.gemini = .error g) (hocr : ocrSucceeds d) :
    docObservations d = .ok [] ∧
    validate_documents registry (l1 ++ d :: l2) = validate_documents registry (l1 ++ l2) := by
  have hdo : docObservations d = .ok [] := by
    by_cases hp : isPdfName d.name
    · obtain ⟨ps, hps, hall⟩ := hocr.1 hp
      obtain ⟨t, ht⟩ := ocrPages_all_ok hall
      simp [docObservations, hp, hps, ht, hg]
    · have hp2 : isPdfName d.name = false := by simpa using hp
      by_cases hi : isImageName d.name
      · obtain ⟨t, ht⟩ := hocr.2 hp2 hi
        simp [docObservations, hp2, hi, ht, hg]
      · have hi2 : isImageName d.name = false := by simpa using hi
        simp [docObservations, hp2, hi2]
  refine ⟨hdo, ?_⟩
  unfold validate_documents
  rw [collectObs_skip hdo l1 l2]

/-- The C8 witness document: OCR succeeds but the Gemini response is
unparseable. -/
def docC8 : Doc :=
  { name := "scan.jpg", pdfPages := .error "unused", imageOcr := .ok "ocr text",
    gemini := .error "JSONDecodeError: Expecting value" }

/-- Witness for C8: the unparseable-response document contributes nothing
and the verdict equals that of the call with only the other document. -/
theorem gemini_failure_skips_document_witness :
    docObservations docC8 = .ok [] ∧
    validate_documents [] ([] ++ docC8 :: [docC1]) = validate_documents [] ([] ++ [docC1]) :=
  gemini_failure_skips_document [] [] [docC1] docC8 "JSONDecodeError: Expecting value" rfl
    ⟨fun h => absurd h (by decide), fun _ _ => ⟨"ocr text", rfl⟩⟩

/-- C9: reconciliation invariant — every entry of the verdict's
`extracted_data` comes from at least one non-empty observation of that
field, stores only non-empty values, and stores pairwise distinct
values. -/
theorem extracted_data_entries_invariant
    (registry : Registry) (docs : List Doc) (obs : List (String × String))
    (cd : List (String × List String)) (f : String) (vs : List String)
    (hobs : collectObs docs = .ok obs)
    (hcd : (validate_documents registry docs).extracted_data = some cd)
    (hmem : (f, vs) ∈ cd) :
    (∃ v, (f, v) ∈ obs ∧ v ≠ "") ∧ (∀ v ∈ vs, v ≠ "") ∧ vs.Nodup := by
  have hcd2 : cd = cleanedData obs := by
    unfold validate_documents at hcd
    rw [hobs] at hcd
    by_cases h : (missingFields obs).isEmpty <;> simp [h] at hcd <;> exact hcd.symm
  subst hcd2
  unfold cleanedData at hmem
  obtain ⟨a, ha, hmatch⟩ := List.mem_filterMap.mp hmem
  cases hv : cleanedValues obs a with
  | nil => rw [hv] at hmatch; cases hmatch
  | cons x xs =>
    rw [hv] at hmatch
    have h3 := Option.some.inj hmatch
    have hf : a = f := (Prod.ext_iff.mp h3).1
    have hvs : vs = x :: xs := ((Prod.ext_iff.mp h3).2).symm
    subst hf
    subst hvs
    have hx : x ∈ cleanedValues obs a := by rw [hv]; exact List.mem_cons_self x xs
    refine ⟨⟨x, mem_cleanedValues.mp hx⟩, ?_, ?_⟩
    · intro v hvmem
      have hvc : v ∈ cleanedValues obs a := by rw [hv]; exact hvmem
      exact (mem_cleanedValues.mp hvc).2
    · rw [← hv]
      unfold cleanedValues
      exact List.nodup_dedup _

/-- Witness for C9 at the one-document call observing name and dob. -/
theorem extracted_data_entries_invariant_witness :
    (∃ v, (("name", v) ∈ [(("name" : String), ("Asha Rao" : String)), ("dob", "2004-05-12")]) ∧ v ≠ "") ∧
    (∀ v ∈ (["Asha Rao"] : List String), v ≠ "") ∧ (["Asha Rao"] : List String).Nodup :=
  extracted_data_entries_invariant [] [docC1] [("name", "Asha Rao"), ("dob", "2004-05-12")]
    [("name", ["Asha Rao"]), ("dob", ["2004-05-12"])] "name" ["Asha Rao"]
    rfl (by decide) (by decide)

/-- The Scenario A text. -/
def scenarioAText : String := "Name: Asha Rao\nDOB: 12-05-2004\nBoard: CBSE\nTotal: 450"

/-- C6 evaluated at the Scenario A input: the marksheet branch extracts
`name="Asha Rao"`, `dob="12-05-2004"` and `total_marks="450"`, but
`board` is `None` — not `"CBSE"` as the claim states.  The board pattern
requires at least one whitespace-or-word character after the matched
board token before its lookahead can fire, and in this text the only
such run after `CBSE` is `"\nTotal"`, after which the colon admits no
sentinel — so the pattern matches nowhere.  (`passing_year` is also
`None`: no year label occurs.) -/
theorem extract_fields_scenarioA :
    extract_fields scenarioAText "marksheet" =
      [("name", some "Asha Rao"), ("dob", some "12-05-2004"), ("passing_year", none),
       ("board", none), ("total_marks", some "450")] := by decide
